import Mathlib

/-!
Verification of the `lld-rust` creational-pattern examples.

The file shallowly embeds two Rust modules:
* `src/creational/abstract_factory.rs` — IoT device families (Samsung,
  Philips) producing light bulbs and fans behind trait objects.  Rust's
  `Result<T, Box<dyn Error>>` is embedded as `Except String T`; a method
  taking `&mut self` becomes a function returning the new value paired
  with its result; `println!` side effects are dropped.
* `src/creational/factory_method.rs` — document readers for CSV and JSON
  sources returning a single `DocData` record.  The external `csv` and
  `serde_json` crates are not repository code; their behaviour, as far as
  the claims need it, is modelled from the spec (header-based field
  mapping for CSV, a single-object parse for JSON).
-/

/-- Embedding of `std::net::IpAddr`: a v4 address of four octets or a v6
address of eight 16-bit segments.  The claims never inspect addresses, so
the segments are plain naturals. -/
inductive IpAddr where
  | v4 : Nat → Nat → Nat → Nat → IpAddr
  | v6 : Nat → Nat → Nat → Nat → Nat → Nat → Nat → Nat → IpAddr
deriving DecidableEq, Repr

/-- Embedding of the `FanSpeed` enum with discriminants 0–5. -/
inductive FanSpeed where
  | Speed0
  | Speed1
  | Speed2
  | Speed3
  | Speed4
  | Speed5
deriving DecidableEq, Repr

/-- Discriminant of a `FanSpeed`, as assigned in the Rust enum. -/
def FanSpeed.toNat : FanSpeed → Nat
  | .Speed0 => 0
  | .Speed1 => 1
  | .Speed2 => 2
  | .Speed3 => 3
  | .Speed4 => 4
  | .Speed5 => 5

/-- Derived `PartialOrd` comparison `a > b` on `FanSpeed`: the derive
compares discriminants. -/
def FanSpeed.gtSpeed (a b : FanSpeed) : Bool :=
  decide (FanSpeed.toNat b < FanSpeed.toNat a)

/-- Embedding of `struct PhilipsSensor { brand, ip, port }`. -/
structure PhilipsSensor where
  brand : String
  ip : IpAddr
  port : Nat
deriving DecidableEq, Repr

/-- Embedding of `struct SamsungSensor { brand, ip, port }`. -/
structure SamsungSensor where
  brand : String
  ip : IpAddr
  port : Nat
deriving DecidableEq, Repr

/-- Embedding of `struct PhilipsLightBulb { sensor_config, state }`. -/
structure PhilipsLightBulb where
  sensor_config : PhilipsSensor
  state : Bool
deriving DecidableEq, Repr

/-- Embedding of `struct PhilipsFan { sensor_config, state }`. -/
structure PhilipsFan where
  sensor_config : PhilipsSensor
  state : FanSpeed
deriving DecidableEq, Repr

/-- Embedding of `struct SamsungLightBulb { sensor_config, state }`. -/
structure SamsungLightBulb where
  sensor_config : SamsungSensor
  state : Bool
deriving DecidableEq, Repr

/-- Embedding of `struct SamsungFan { sensor_config, state }`. -/
structure SamsungFan where
  sensor_config : SamsungSensor
  state : FanSpeed
deriving DecidableEq, Repr

/-- `impl LightBulb for PhilipsLightBulb`: `is_switched_on` returns
`Ok(self.state)`. -/
def PhilipsLightBulb.is_switched_on (b : PhilipsLightBulb) : Except String Bool :=
  Except.ok b.state

/-- `impl LightBulb for PhilipsLightBulb`: `switch` assigns
`self.state = command` and returns `Ok(true)`. -/
def PhilipsLightBulb.switch (b : PhilipsLightBulb) (command : Bool) :
    PhilipsLightBulb × Except String Bool :=
  ({ b with state := command }, Except.ok true)

/-- `impl Fan for PhilipsFan`: `is_switched_on` returns
`Ok(self.state > FanSpeed::Speed0)`. -/
def PhilipsFan.is_switched_on (f : PhilipsFan) : Except String Bool :=
  Except.ok (FanSpeed.gtSpeed f.state FanSpeed.Speed0)

/-- `impl Fan for PhilipsFan`: `switch` assigns `self.state = command`
and returns `Ok(true)`. -/
def PhilipsFan.switch (f : PhilipsFan) (command : FanSpeed) :
    PhilipsFan × Except String Bool :=
  ({ f with state := command }, Except.ok true)

/-- `impl LightBulb for SamsungLightBulb`: `is_switched_on` returns
`Ok(self.state)`. -/
def SamsungLightBulb.is_switched_on (b : SamsungLightBulb) : Except String Bool :=
  Except.ok b.state

/-- `impl LightBulb for SamsungLightBulb`: `switch` assigns
`self.state = command` and returns `Ok(true)`. -/
def SamsungLightBulb.switch (b : SamsungLightBulb) (command : Bool) :
    SamsungLightBulb × Except String Bool :=
  ({ b with state := command }, Except.ok true)

/-- `impl Fan for SamsungFan`: `is_switched_on` returns
`Ok(self.state > FanSpeed::Speed0)`. -/
def SamsungFan.is_switched_on (f : SamsungFan) : Except String Bool :=
  Except.ok (FanSpeed.gtSpeed f.state FanSpeed.Speed0)

/-- `impl Fan for SamsungFan`: `switch` assigns `self.state = command`
and returns `Ok(true)`. -/
def SamsungFan.switch (f : SamsungFan) (command : FanSpeed) :
    SamsungFan × Except String Bool :=
  ({ f with state := command }, Except.ok true)

/-- `impl DeviceFactory for PhilipsSensor::create_light_bulb`: a bulb
cloning the sensor config, with `state: false`. -/
def PhilipsSensor.create_light_bulb (s : PhilipsSensor) :
    Except String PhilipsLightBulb :=
  Except.ok { sensor_config := s, state := false }

/-- `impl DeviceFactory for PhilipsSensor::create_fan`: a fan cloning the
sensor config, with `state: FanSpeed::Speed0`. -/
def PhilipsSensor.create_fan (s : PhilipsSensor) : Except String PhilipsFan :=
  Except.ok { sensor_config := s, state := FanSpeed.Speed0 }

/-- `impl DeviceFactory for SamsungSensor::create_light_bulb`: a bulb
cloning the sensor config, with `state: false`. -/
def SamsungSensor.create_light_bulb (s : SamsungSensor) :
    Except String SamsungLightBulb :=
  Except.ok { sensor_config := s, state := false }

/-- `impl DeviceFactory for SamsungSensor::create_fan`: a fan cloning the
sensor config, with `state: FanSpeed::Speed0`. -/
def SamsungSensor.create_fan (s : SamsungSensor) : Except String SamsungFan :=
  Except.ok { sensor_config := s, state := FanSpeed.Speed0 }

/-- A family factory as produced by the `match` in `run()`: either a
Samsung sensor or a Philips sensor behind `Box<dyn DeviceFactory>`. -/
inductive DeviceFactorySel where
  | samsung : SamsungSensor → DeviceFactorySel
  | philips : PhilipsSensor → DeviceFactorySel
deriving DecidableEq, Repr

/-- Embedding of the factory-selection `match application.0` in `run()`:
the branches for `"Samsung"` and `"Philips"` build the sensor from the
tuple; the wildcard branch panics with `"Invalid factory"`, modelled as
`Except.error`. -/
def selectDeviceFactory (name : String) (ip : IpAddr) (port : Nat) :
    Except String DeviceFactorySel :=
  if name = "Samsung" then
    Except.ok (DeviceFactorySel.samsung { brand := name, ip := ip, port := port })
  else if name = "Philips" then
    Except.ok (DeviceFactorySel.philips { brand := name, ip := ip, port := port })
  else
    Except.error "Invalid factory"

/-- Embedding of `struct DocData { name: String, age: u16 }`; `age` is a
natural kept below `2 ^ 16` by the parsers. -/
structure DocData where
  name : String
  age : Nat
deriving DecidableEq, Repr

/-- Value of a string of decimal digits; `none` when the string is empty
or holds a non-digit, as for Rust's `u16` field deserialization. -/
def parseDecimalNat (s : String) : Option Nat :=
  if s.length > 0 ∧ s.data.all Char.isDigit then
    some (s.data.foldl (fun a c => a * 10 + (c.toNat - 48)) 0)
  else
    none

/-- Modelled from the spec: the `csv` crate's header-based field mapping
(`rdr.deserialize()` item), which is not repository code.  Given the
header row, a data row deserializes to `DocData` by looking up the
`name` and `age` columns and parsing `age` as a `u16`; any missing
column, missing field or malformed number is a deserialize error. -/
def parseRow (hdr row : List String) : Except String DocData :=
  match hdr.findIdx? (fun s => s = "name"), hdr.findIdx? (fun s => s = "age") with
  | some i, some j =>
    match row.get? i, row.get? j with
    | some nm, some ag =>
      match parseDecimalNat ag with
      | some n => if n < 65536 then Except.ok { name := nm, age := n }
                  else Except.error "deserialize error"
      | none => Except.error "deserialize error"
    | _, _ => Except.error "deserialize error"
  | _, _ => Except.error "deserialize error"

/-- Modelled from the spec: the stream `rdr.deserialize()` yields over a
CSV source, which is decided by the `csv` crate, not repository code.
The source is taken already split into rows of fields; the first row is
the header and each later row yields one deserialization result. -/
def csvDeserialize (rows : List (List String)) : List (Except String DocData) :=
  match rows with
  | [] => []
  | hdr :: dataRows => dataRows.map (parseRow hdr)

/-- Embedding of `CsvProcessor::read_data`: iterate over
`rdr.deserialize()`; the first item is returned (`Ok` via `return`,
`Err` via `?`), so later items are never reached; an empty stream falls
through to the `"record not found"` error. -/
def CsvProcessor.read_data (rows : List (List String)) : Except String DocData :=
  match csvDeserialize rows with
  | [] => Except.error "record not found"
  | Except.ok record :: _ => Except.ok record
  | Except.error e :: _ => Except.error e

/-- Advance past JSON whitespace characters. -/
def jsonSkipWs : List Char → List Char
  | [] => []
  | c :: cs =>
    if c = ' ' ∨ c = '\n' ∨ c = '\t' ∨ c = '\r' then jsonSkipWs cs
    else c :: cs

/-- Read the remainder of a JSON string literal after its opening quote:
the characters before the closing quote, and the rest of the input. -/
def jsonStrChars (cs : List Char) (acc : List Char) :
    Option (List Char × List Char) :=
  match cs with
  | [] => none
  | c :: rest =>
    if c = '"' then some (acc.reverse, rest)
    else jsonStrChars rest (c :: acc)

/-- Read a JSON string literal, quotes included. -/
def jsonParseString (cs : List Char) : Option (String × List Char) :=
  match cs with
  | '"' :: rest =>
    match jsonStrChars rest [] with
    | some (chars, rest') => some (String.mk chars, rest')
    | none => none
  | _ => none

/-- Read a nonempty run of decimal digits as a natural number. -/
def jsonParseNumber (cs : List Char) : Option (Nat × List Char) :=
  match cs.span Char.isDigit with
  | (digits, rest) =>
    if digits.isEmpty then none
    else some (digits.foldl (fun a c => a * 10 + (c.toNat - 48)) 0, rest)

/-- Modelled from the spec: the member loop of `serde_json::from_str`
for `DocData`, which is not repository code.  Each step reads one
`"key": value` pair, recording the `name` string or the `age` number
(bounded by `u16`); after a comma it continues, and at the closing
brace it requires both fields to have been seen.  Any other shape is a
parse error.  `fuel` bounds the recursion by the input length. -/
def jsonMembers (fuel : Nat) (cs : List Char)
    (nm : Option String) (ag : Option Nat) :
    Except String (DocData × List Char) :=
  match fuel with
  | 0 => Except.error "parse error"
  | fuel' + 1 =>
    match jsonParseString (jsonSkipWs cs) with
    | none => Except.error "parse error"
    | some (key, afterKey) =>
      match jsonSkipWs afterKey with
      | ':' :: afterColon =>
        let afterColon' := jsonSkipWs afterColon
        let step : Except String (Option String × Option Nat × List Char) :=
          if key = "name" then
            match jsonParseString afterColon' with
            | some (v, rest) => Except.ok (some v, ag, rest)
            | none => Except.error "parse error"
          else if key = "age" then
            match jsonParseNumber afterColon' with
            | some (v, rest) =>
              if v < 65536 then Except.ok (nm, some v, rest)
              else Except.error "parse error"
            | none => Except.error "parse error"
          else Except.error "parse error"
        match step with
        | Except.error e => Except.error e
        | Except.ok (nm', ag', rest) =>
          match jsonSkipWs rest with
          | ',' :: more => jsonMembers fuel' more nm' ag'
          | '\x7d' :: more =>
            match nm', ag' with
            | some n, some a => Except.ok ({ name := n, age := a }, more)
            | _, _ => Except.error "parse error"
          | _ => Except.error "parse error"
      | _ => Except.error "parse error"

/-- Modelled from the spec: `serde_json::from_str::<DocData>`, which is
not repository code — parse the entire source as exactly one record
object; any structural mismatch is a parse error. -/
def jsonFromStr (s : String) : Except String DocData :=
  match jsonSkipWs s.data with
  | '\x7b' :: rest =>
    match jsonMembers (s.length + 1) rest none none with
    | Except.ok (d, rest') =>
      if (jsonSkipWs rest').isEmpty then Except.ok d
      else Except.error "parse error"
    | Except.error e => Except.error e
  | _ => Except.error "parse error"

/-- Embedding of `JsonProcessor::read_data`: read the whole source text
and deserialize it as one `DocData`. -/
def JsonProcessor.read_data (file_data : String) : Except String DocData :=
  jsonFromStr file_data

/-- C1: for both device families and every fan speed level `L`, a fan
created by the family's factory, once switched to `L`, reports
`Ok(L > 0)` from `is_switched_on` — the on/off answer is the comparison
of the stored speed against the zero level. -/
theorem fan_switch_then_on_iff_speed_pos (pc : PhilipsSensor)
    (sc : SamsungSensor) (L : FanSpeed) :
    Except.map (fun f => PhilipsFan.is_switched_on (PhilipsFan.switch f L).fst)
      (PhilipsSensor.create_fan pc)
      = Except.ok (Except.ok (decide (0 < FanSpeed.toNat L))) ∧
    Except.map (fun f => SamsungFan.is_switched_on (SamsungFan.switch f L).fst)
      (SamsungSensor.create_fan sc)
      = Except.ok (Except.ok (decide (0 < FanSpeed.toNat L))) :=
  ⟨rfl, rfl⟩

/-- C2: for both device families, a factory-created light bulb reports
`Ok(true)` after `switch(true)`, and `Ok(false)` after a subsequent
`switch(false)`. -/
theorem bulb_switch_reports_command (pc : PhilipsSensor) (sc : SamsungSensor) :
    Except.map (fun b => PhilipsLightBulb.is_switched_on
        (PhilipsLightBulb.switch b true).fst)
      (PhilipsSensor.create_light_bulb pc) = Except.ok (Except.ok true) ∧
    Except.map (fun b => PhilipsLightBulb.is_switched_on
        (PhilipsLightBulb.switch (PhilipsLightBulb.switch b true).fst false).fst)
      (PhilipsSensor.create_light_bulb pc) = Except.ok (Except.ok false) ∧
    Except.map (fun b => SamsungLightBulb.is_switched_on
        (SamsungLightBulb.switch b true).fst)
      (SamsungSensor.create_light_bulb sc) = Except.ok (Except.ok true) ∧
    Except.map (fun b => SamsungLightBulb.is_switched_on
        (SamsungLightBulb.switch (SamsungLightBulb.switch b true).fst false).fst)
      (SamsungSensor.create_light_bulb sc) = Except.ok (Except.ok false) :=
  ⟨rfl, rfl, rfl, rfl⟩

/-- C3: on a CSV source whose first data row deserializes to `d`, the
CSV reader returns `Ok d`, and the rows after the first have no effect
on the result. -/
theorem csv_read_returns_first_row (hdr r1 : List String)
    (rest rest' : List (List String)) (d : DocData)
    (h : parseRow hdr r1 = Except.ok d) :
    CsvProcessor.read_data (hdr :: r1 :: rest) = Except.ok d ∧
    CsvProcessor.read_data (hdr :: r1 :: rest)
      = CsvProcessor.read_data (hdr :: r1 :: rest') := by
  simp [CsvProcessor.read_data, csvDeserialize, h]

/-- Witness for C3 at a concrete two-row source: the reader returns the
first row `Alice, 30` and agrees with the one-row source. -/
theorem csv_read_returns_first_row_witness :
    CsvProcessor.read_data [["name", "age"], ["Alice", "30"], ["Bob", "25"]]
      = Except.ok { name := "Alice", age := 30 } ∧
    CsvProcessor.read_data [["name", "age"], ["Alice", "30"], ["Bob", "25"]]
      = CsvProcessor.read_data [["name", "age"], ["Alice", "30"]] :=
  csv_read_returns_first_row ["name", "age"] ["Alice", "30"]
    [["Bob", "25"]] [] { name := "Alice", age := 30 } rfl

/-- C4: on a CSV source holding only a header row and no data rows, the
CSV reader fails with the error message `record not found`. -/
theorem csv_read_header_only_fails (hdr : List String) :
    CsvProcessor.read_data [hdr] = Except.error "record not found" :=
  rfl

/-- C5: the JSON reader deserializes the serialized record
`\x7b"name":"Alice","age":30\x7d` back to the record with name `Alice`
and age `30`. -/
theorem json_read_round_trips :
    JsonProcessor.read_data "\x7b\"name\":\"Alice\",\"age\":30\x7d"
      = Except.ok { name := "Alice", age := 30 } :=
  rfl

/-- C6: the device-factory selection in `run()` treats every selector
outside Samsung and Philips as the fatal `Invalid factory` panic, never
a factory and never a recoverable value. -/
theorem select_factory_unknown_panics (name : String) (ip : IpAddr)
    (port : Nat) (h1 : name ≠ "Samsung") (h2 : name ≠ "Philips") :
    selectDeviceFactory name ip port = Except.error "Invalid factory" := by
  simp [selectDeviceFactory, h1, h2]

/-- Witness for C6 at the selector `LG`. -/
theorem select_factory_unknown_panics_witness :
    selectDeviceFactory "LG" (IpAddr.v4 192 168 0 1) 80
      = Except.error "Invalid factory" :=
  select_factory_unknown_panics "LG" (IpAddr.v4 192 168 0 1) 80
    (by decide) (by decide)

/-- C7: for every device of every family, in every state and for every
command, `switch` returns the success branch with flag `true`; the
error branch is never taken. -/
theorem switch_always_succeeds (pb : PhilipsLightBulb) (sb : SamsungLightBulb)
    (pf : PhilipsFan) (sf : SamsungFan) (c : Bool) (L : FanSpeed) :
    (PhilipsLightBulb.switch pb c).snd = Except.ok true ∧
    (SamsungLightBulb.switch sb c).snd = Except.ok true ∧
    (PhilipsFan.switch pf L).snd = Except.ok true ∧
    (SamsungFan.switch sf L).snd = Except.ok true :=
  ⟨rfl, rfl, rfl, rfl⟩

/-- C8: for every device of every family, `switch` is an idempotent
state assignment: switching twice with the same command equals switching
once, and the stored state after the call is the command, independent of
the state before the call. -/
theorem switch_idempotent_assignment (pb : PhilipsLightBulb)
    (sb : SamsungLightBulb) (pf : PhilipsFan) (sf : SamsungFan)
    (c : Bool) (L : FanSpeed) :
    ((PhilipsLightBulb.switch (PhilipsLightBulb.switch pb c).fst c).fst
        = (PhilipsLightBulb.switch pb c).fst
      ∧ (PhilipsLightBulb.switch pb c).fst.state = c) ∧
    ((SamsungLightBulb.switch (SamsungLightBulb.switch sb c).fst c).fst
        = (SamsungLightBulb.switch sb c).fst
      ∧ (SamsungLightBulb.switch sb c).fst.state = c) ∧
    ((PhilipsFan.switch (PhilipsFan.switch pf L).fst L).fst
        = (PhilipsFan.switch pf L).fst
      ∧ (PhilipsFan.switch pf L).fst.state = L) ∧
    ((SamsungFan.switch (SamsungFan.switch sf L).fst L).fst
        = (SamsungFan.switch sf L).fst
      ∧ (SamsungFan.switch sf L).fst.state = L) :=
  ⟨⟨rfl, rfl⟩, ⟨rfl, rfl⟩, ⟨rfl, rfl⟩, ⟨rfl, rfl⟩⟩

/-- C9: every device returned by a family factory starts switched off:
right after creation, bulbs report `Ok(false)` and fans (at speed level
zero) report `Ok(false)`, for both families. -/
theorem created_devices_start_off (pc : PhilipsSensor) (sc : SamsungSensor) :
    Except.map PhilipsLightBulb.is_switched_on
      (PhilipsSensor.create_light_bulb pc) = Except.ok (Except.ok false) ∧
    Except.map PhilipsFan.is_switched_on
      (PhilipsSensor.create_fan pc) = Except.ok (Except.ok false) ∧
    Except.map SamsungLightBulb.is_switched_on
      (SamsungSensor.create_light_bulb sc) = Except.ok (Except.ok false) ∧
    Except.map SamsungFan.is_switched_on
      (SamsungSensor.create_fan sc) = Except.ok (Except.ok false) :=
  ⟨rfl, rfl, rfl, rfl⟩

/-- C10: for every device of every family, `switch` changes only the
on/off or speed state: the sensor configuration carried by the device is
exactly the one before the call.  (`is_switched_on` takes the device by
shared reference and is embedded as a pure function, so it cannot change
the configuration at all.) -/
theorem switch_preserves_sensor_config (pb : PhilipsLightBulb)
    (sb : SamsungLightBulb) (pf : PhilipsFan) (sf : SamsungFan)
    (c : Bool) (L : FanSpeed) :
    (PhilipsLightBulb.switch pb c).fst.sensor_config = pb.sensor_config ∧
    (SamsungLightBulb.switch sb c).fst.sensor_config = sb.sensor_config ∧
    (PhilipsFan.switch pf L).fst.sensor_config = pf.sensor_config ∧
    (SamsungFan.switch sf L).fst.sensor_config = sf.sensor_config :=
  ⟨rfl, rfl, rfl, rfl⟩
